import Mathlib

/-!
Verification development for the `xiaomi_miot` climate/fan integration
(`custom_components/xiaomi_miot/climate.py` and `fan.py`).

The entity classes are embedded shallowly: each Python method becomes a Lean
function over an explicit state snapshot (the entity's cached `_state_attrs`
dictionary), and device writes / action invocations are collected into an
explicit effect trace.  The schema helper classes (`MiotProperty`,
`MiotService`, `MiotSpec`) and the base-entity transport methods
(`set_property`, `miot_action`) live outside the two embedded files; they are
modelled from the specification document (sections 4.1, 4.2, 4.5 and 6), as
noted on each such definition.
-/

namespace HassXiaomiMiot

/-- A Python runtime value as it appears in the flat state snapshot and in
property writes: `None`, a bool, an int, a string, or a (rational-modelled)
float.  Floats only ever undergo comparison and storage in the embedded code,
so rationals model them exactly. -/
inductive MiValue where
  | none : MiValue
  | bool : Bool → MiValue
  | int : Int → MiValue
  | str : String → MiValue
  | rat : ℚ → MiValue
deriving DecidableEq, Repr

/-- Python truthiness (`bool(x)`) for snapshot values. -/
def MiValue.truthy : MiValue → Bool
  | .none => false
  | .bool b => b
  | .int n => decide (n ≠ 0)
  | .str s => decide (s ≠ "")
  | .rat q => decide (q ≠ 0)

/-- Numeric view of a value: Python compares `bool`, `int` and `float`
numerically (`True == 1`, `0 == 0.0`). -/
def MiValue.numQ : MiValue → Option ℚ
  | .bool b => some (if b then 1 else 0)
  | .int n => some (n : ℚ)
  | .rat q => some q
  | _ => Option.none

/-- Python `==` on snapshot values: numeric values compare by value across
`bool`/`int`/`float`; otherwise equality is structural (`None == None` is
`True`, values of unrelated types are unequal). -/
def pyEq (a b : MiValue) : Bool :=
  match a.numQ, b.numQ with
  | some x, some y => decide (x = y)
  | _, _ => decide (a = b)

/-- Python `x != ys` where `x` is a scalar snapshot value and `ys` a list of
raw values: a value of non-list type never equals a list, so the comparison
is always `True`. -/
def pyNeScalarList (_x : MiValue) (_ys : List Int) : Bool := true

/-- The entity's cached flat state snapshot (`self._state_attrs`), keyed by
fully-qualified property name plus a few loose keys such as `power`. -/
abbrev StateAttrs : Type := List (String × MiValue)

/-- Embeds `dict.get(k)`: the stored value, or `None` when the key is absent. -/
def getAttr (s : StateAttrs) (k : String) : MiValue :=
  match (List.find? (fun kv => kv.1 == k) s) with
  | some kv => kv.2
  | _ => MiValue.none

/-- Embeds `dict[k] = v`: replace the binding for `k`, or append it. -/
def setAttr (s : StateAttrs) (k : String) (v : MiValue) : StateAttrs :=
  if (List.any s (fun kv => kv.1 == k)) then
    List.map (fun kv => if kv.1 == k then (k, v) else kv) s
  else s ++ [(k, v)]

/-- One entry of an enumerated property's `value_list`:
`{'value': ..., 'description': ...}`. -/
structure ValueItem where
  value : Int
  description : String
deriving DecidableEq, Repr

/-- A numeric property's `{'min','max','step'}` range. -/
structure ValueRange where
  low : ℚ
  high : ℚ
  step : ℚ
deriving DecidableEq, Repr

/-- Modelled from the spec (section 3, PropertyDescriptor): one named, typed
device attribute with an optional enumerated value list and an optional
numeric range; `fullName` is the fully-qualified name keying the snapshot. -/
structure MiotProperty where
  name : String
  fullName : String
  format : String
  valueList : List ValueItem
  valueRange : Option ValueRange
deriving DecidableEq, Repr

/-- Modelled from the spec (section 4.1): `from_dict(stateSnapshot, default)`
extracts this property's current value from the flat snapshot keyed by
fully-qualified name, applying `default` when the key is absent. -/
def MiotProperty.from_dict (p : MiotProperty) (s : StateAttrs) (d : MiValue) : MiValue :=
  match (List.find? (fun kv => kv.1 == p.fullName) s) with
  | some kv => kv.2
  | _ => d

/-- Modelled from the spec (section 4.1): `list_value(description)` is the
reverse lookup in `value_list`, `None` if no match. -/
def MiotProperty.list_value (p : MiotProperty) (d : String) : Option Int :=
  Option.map (fun it => it.value) (List.find? (fun it => it.description == d) p.valueList)

/-- Modelled from the spec (section 4.1): `list_first(*descriptions)` returns
the raw value of the first candidate, in argument order, that exists in
`value_list`, else `None`. -/
def MiotProperty.list_first (p : MiotProperty) (descs : List String) : Option Int :=
  List.findSome? (fun d => p.list_value d) descs

/-- Modelled from the spec (section 4.1): `list_search(*descriptions)` returns
the list of all raw values whose description matches one of the candidates
(not just the first), for membership tests. -/
def MiotProperty.list_search (p : MiotProperty) (descs : List String) : List Int :=
  List.map (fun it => it.value)
    (List.filter (fun it => List.contains descs it.description) p.valueList)

/-- Modelled from the spec (section 4.1): `range_min()`; `None` when the
property carries no numeric range. -/
def MiotProperty.range_min (p : MiotProperty) : Option ℚ :=
  Option.map (fun r => r.low) p.valueRange

/-- Modelled from the spec (section 4.1): `range_max()`. -/
def MiotProperty.range_max (p : MiotProperty) : Option ℚ :=
  Option.map (fun r => r.high) p.valueRange

/-- An action declared by a service (`stop_working`, `power_off`, ...). -/
structure MiotAction where
  name : String
  iid : Nat
deriving DecidableEq, Repr

/-- Modelled from the spec (section 3, ServiceDescriptor): a named bundle of
properties and actions. -/
structure MiotService where
  name : String
  iid : Nat
  props : List MiotProperty
  actions : List MiotAction
deriving DecidableEq, Repr

/-- Modelled from the spec (section 4.2): `get_property(*candidateNames)`
returns the first property whose name matches, in argument order, else
`None`. -/
def MiotService.get_property (s : MiotService) (names : List String) : Option MiotProperty :=
  List.findSome? (fun n => List.find? (fun p => p.name == n) s.props) names

/-- Modelled from the spec (section 4.2): `get_action(*candidateNames)`. -/
def MiotService.get_action (s : MiotService) (names : List String) : Option MiotAction :=
  List.findSome? (fun n => List.find? (fun a => a.name == n) s.actions) names

/-- Modelled from the spec (section 4.5): `bool_property(name)` resolves a
named boolean alternate-power property: the service's property of that name
when it exists and has boolean format, else `None`. -/
def MiotService.bool_property (s : MiotService) (n : String) : Option MiotProperty :=
  match (List.find? (fun p => p.name == n) s.props) with
  | some p => if p.format == "bool" then some p else Option.none
  | _ => Option.none

/-- Modelled from the spec (section 6, Spec Registry): the device schema as a
collection of services, with `get_service` tolerating absence. -/
structure MiotSpec where
  services : List MiotService
deriving DecidableEq, Repr

/-- Embeds `get_service(name)`: first service of that name, else `None`. -/
def MiotSpec.get_service (sp : MiotSpec) (n : String) : Option MiotService :=
  List.find? (fun s => s.name == n) sp.services

/-- One observable device interaction performed by an entity method: a
property write (`set_property`), an action invocation (`miot_action`), or an
optimistic local shadow update (`update_attrs`). -/
inductive Effect where
  | write : String → MiValue → Effect
  | invoke : Nat → Nat → Effect
  | shadow : String → MiValue → Effect
deriving DecidableEq, Repr

/-- Modelled from the spec (section 6): `set_property` delegates to the
transport's `writeProperty(fullyQualifiedName, value)`; the write is recorded
as an effect, and the transport result is modelled as success (transport
failure is explicitly outside this layer). -/
def set_property (k : String) (v : MiValue) : MiValue × List Effect :=
  (MiValue.bool true, [Effect.write k v])

/-- Modelled from the spec (section 6): `miot_action` delegates to the
transport's `invokeAction(serviceId, actionId)`, modelled as success. -/
def miot_action (siid aiid : Nat) : MiValue × List Effect :=
  (MiValue.bool true, [Effect.invoke siid aiid])

/-- Replay an effect trace onto the cached snapshot: a state in which every
performed write (and shadow update) is reflected at its own key. -/
def applyEffects (s : StateAttrs) (effs : List Effect) : StateAttrs :=
  List.foldl (fun st eff =>
    match eff with
    | Effect.write k v => setAttr st k v
    | Effect.shadow k v => setAttr st k v
    | _ => st) s effs

/-- Python `x and True`: `True` when `x` is truthy, otherwise `x` itself. -/
def pyAndTrue (v : MiValue) : MiValue :=
  if v.truthy then MiValue.bool true else v

/-- Home Assistant climate constant `HVAC_MODE_OFF`. -/
def HVAC_MODE_OFF : String := "off"

/-- Home Assistant climate constant `HVAC_MODE_AUTO`. -/
def HVAC_MODE_AUTO : String := "auto"

/-- Home Assistant climate constant `HVAC_MODE_COOL`. -/
def HVAC_MODE_COOL : String := "cool"

/-- Home Assistant climate constant `HVAC_MODE_HEAT`. -/
def HVAC_MODE_HEAT : String := "heat"

/-- Home Assistant climate constant `HVAC_MODE_DRY`. -/
def HVAC_MODE_DRY : String := "dry"

/-- Home Assistant climate constant `HVAC_MODE_FAN_ONLY`. -/
def HVAC_MODE_FAN_ONLY : String := "fan_only"

/-- Embeds `self._power_modes` set in `MiotClimateEntity.__init__`. -/
def power_modes : List String := ["blow", "heating", "ventilation"]

/-- The `self._hvac_modes` candidate table set in `__init__`, in dict
insertion order: abstract mode key paired with its description candidates. -/
def hvac_mode_lists : List (String × List String) :=
  [(HVAC_MODE_OFF, ["Off", "Idle", "None"]),
   (HVAC_MODE_AUTO, ["Auto"]),
   (HVAC_MODE_COOL, ["Cool"]),
   (HVAC_MODE_HEAT, ["Heat"]),
   (HVAC_MODE_DRY, ["Dry"]),
   (HVAC_MODE_FAN_ONLY, ["Fan"])]

/-- Embeds `SwingModes[name].value` (`climate.py` lines 70-74); `None` stands for the
`KeyError` Python raises on an unknown name. -/
def SwingModes_value : String → Option Nat
  | "Off" => some 0
  | "Vertical" => some 1
  | "Horizontal" => some 2
  | "Steric" => some 3
  | _ => Option.none

/-- Embeds `SwingModes(val).name` for the bitmask values 0..3. -/
def SwingModes_name : Nat → String
  | 0 => "Off"
  | 1 => "Vertical"
  | 2 => "Horizontal"
  | _ => "Steric"

/-- A `MiotClimateEntity` as constructed in `climate.py` `__init__`: it holds
the device schema and its primary service; every `self._prop_*` attribute is
a pure function of these two (the schema is immutable for the session). -/
structure MiotClimateEntity where
  spec : MiotSpec
  miot_service : MiotService
deriving DecidableEq, Repr

/-- Embeds `self._prop_power = miot_service.get_property('on')`. -/
def MiotClimateEntity.prop_power (e : MiotClimateEntity) : Option MiotProperty :=
  e.miot_service.get_property ["on"]

/-- Embeds `self._prop_mode = miot_service.get_property('mode')`. -/
def MiotClimateEntity.prop_mode (e : MiotClimateEntity) : Option MiotProperty :=
  e.miot_service.get_property ["mode"]

/-- Embeds `self._prop_target_temp = miot_service.get_property('target_temperature')`. -/
def MiotClimateEntity.prop_target_temp (e : MiotClimateEntity) : Option MiotProperty :=
  e.miot_service.get_property ["target_temperature"]

/-- Embeds `self._prop_target_humi = miot_service.get_property('target_humidity')`. -/
def MiotClimateEntity.prop_target_humi (e : MiotClimateEntity) : Option MiotProperty :=
  e.miot_service.get_property ["target_humidity"]

/-- Embeds `self._fan_control = miot_service.spec.get_service('fan_control')`. -/
def MiotClimateEntity.fan_control (e : MiotClimateEntity) : Option MiotService :=
  e.spec.get_service "fan_control"

/-- Embeds `self._prop_fan_level`: resolved on the primary service, then overwritten
from the `fan_control` service whenever that service exists (even when the
latter lookup fails). -/
def MiotClimateEntity.prop_fan_level (e : MiotClimateEntity) : Option MiotProperty :=
  match e.fan_control with
  | some fc => fc.get_property ["fan_level"]
  | _ => e.miot_service.get_property ["fan_level"]

/-- Embeds `self._prop_fan_power = self._fan_control.get_property('on')` when the
`fan_control` service exists, else `None`. -/
def MiotClimateEntity.prop_fan_power (e : MiotClimateEntity) : Option MiotProperty :=
  match e.fan_control with
  | some fc => fc.get_property ["on"]
  | _ => Option.none

/-- Embeds `self._prop_vertical_swing`: from the `fan_control` service, else `None`. -/
def MiotClimateEntity.prop_vertical_swing (e : MiotClimateEntity) : Option MiotProperty :=
  match e.fan_control with
  | some fc => fc.get_property ["vertical_swing"]
  | _ => Option.none

/-- Embeds `self._prop_horizontal_swing`: from the `fan_control` service, else `None`. -/
def MiotClimateEntity.prop_horizontal_swing (e : MiotClimateEntity) : Option MiotProperty :=
  match e.fan_control with
  | some fc => fc.get_property ["horizontal_swing"]
  | _ => Option.none

/-- Embeds `self._hvac_modes[mk].get('value')` after `__init__` (lines 141-145): the
raw value resolved for abstract mode `mk` by matching its candidate
descriptions against the mode property's value list, first match winning;
`None` when there is no mode property, an unknown key, or no match. -/
def MiotClimateEntity.hvac_mode_value (e : MiotClimateEntity) (mk : String) : Option Int :=
  match e.prop_mode with
  | some pm =>
    match (List.find? (fun c => c.1 == mk) hvac_mode_lists) with
    | some c => pm.list_first c.2
    | _ => Option.none
  | _ => Option.none

/-- The `for m in self._power_modes` loop of `is_on` (lines 209-214): true
iff some alternate power property exists and reads truthy in the snapshot. -/
def MiotClimateEntity.alternate_power_on (e : MiotClimateEntity) (s : StateAttrs) : Bool :=
  List.any power_modes (fun m =>
    match e.miot_service.bool_property m with
    | some p => (getAttr s p.fullName).truthy
    | _ => false)

/-- Embeds `MiotClimateEntity.is_on` (lines 205-222): dedicated power property,
then truthy alternate power properties, then mode-vs-resolved-Off, then the
loose `power` snapshot key, else `None`. -/
def MiotClimateEntity.is_on (e : MiotClimateEntity) (s : StateAttrs) : MiValue :=
  match e.prop_power with
  | some p => pyAndTrue (p.from_dict s MiValue.none)
  | _ =>
    if e.alternate_power_on s then MiValue.bool true
    else
      let modeRes : Option MiValue :=
        match e.prop_mode with
        | some pm =>
          match e.hvac_mode_value HVAC_MODE_OFF with
          | some off =>
            some (MiValue.bool (!(pyEq (MiValue.int off) (pm.from_dict s MiValue.none))))
          | _ => Option.none
        | _ => Option.none
      match modeRes with
      | some r => r
      | _ =>
        let power := getAttr s "power"
        if power = MiValue.none then MiValue.none else pyAndTrue power

/-- The `ret = None; for m in self._power_modes: ...` tail of `turn_off`
(lines 261-271): write `False` to every existing alternate power property,
else fall back to the fan-control power property, else return `False`. -/
def MiotClimateEntity.turn_off_modes (e : MiotClimateEntity) : MiValue × List Effect :=
  let ps := List.filterMap (fun m => e.miot_service.bool_property m) power_modes
  if ps = [] then
    match e.prop_fan_power with
    | some p => set_property p.fullName (MiValue.bool false)
    | _ => (MiValue.bool false, [])
  else
    (MiValue.bool true, List.map (fun p => Effect.write p.fullName (MiValue.bool false)) ps)

/-- Embeds `MiotClimateEntity.turn_off` (lines 248-271); the snapshot argument is
kept for the method's signature even though no branch consults it. -/
def MiotClimateEntity.turn_off (e : MiotClimateEntity) (_s : StateAttrs) : MiValue × List Effect :=
  match e.prop_power with
  | some p => set_property p.fullName (MiValue.bool false)
  | _ =>
    match e.prop_mode, e.hvac_mode_value HVAC_MODE_OFF with
    | some pm, some off => set_property pm.fullName (MiValue.int off)
    | _, _ =>
      match e.miot_service.get_action ["stop_working", "power_off"] with
      | some act =>
        let r := miot_action e.miot_service.iid act.iid
        if r.1.truthy then (r.1, r.2 ++ [Effect.shadow "power" (MiValue.bool false)])
        else
          let t := e.turn_off_modes
          (t.1, r.2 ++ t.2)
      | _ => e.turn_off_modes

/-- Embeds `MiotClimateEntity.hvac_mode` (lines 277-287): `off` whenever `is_on` is
falsy, otherwise the first abstract mode whose resolved raw value equals the
current raw mode, else `None`.  (`int(acm or 0)` is total here because
enumerated mode values are numeric; a non-numeric value is mapped to 0 where
Python would raise.) -/
def MiotClimateEntity.hvac_mode (e : MiotClimateEntity) (s : StateAttrs) : Option String :=
  if !(e.is_on s).truthy then some HVAC_MODE_OFF
  else
    match e.prop_mode with
    | some pm =>
      let acmv := pm.from_dict s MiValue.none
      let acm : Int :=
        if acmv = MiValue.none then -1
        else if acmv.truthy then
          (match acmv with
           | MiValue.bool b => if b then 1 else 0
           | MiValue.int n => n
           | MiValue.rat q => q.num / (q.den : Int)
           | _ => 0)
        else 0
      List.findSome? (fun c =>
        match e.hvac_mode_value c.1 with
        | some v => if acm = v then some c.1 else Option.none
        | _ => Option.none) hvac_mode_lists
    | _ => Option.none

/-- Embeds `MiotClimateEntity.hvac_modes` (lines 289-299). -/
def MiotClimateEntity.hvac_modes (e : MiotClimateEntity) : List String :=
  let hms : List String :=
    match e.prop_mode with
    | some _ =>
      List.map (fun c => c.1)
        (List.filter (fun c => (e.hvac_mode_value c.1).isSome) hvac_mode_lists)
    | _ => []
  if List.contains hms HVAC_MODE_OFF then hms else hms ++ [HVAC_MODE_OFF]

/-- Embeds `MiotClimateEntity.set_hvac_mode` (lines 301-311). -/
def MiotClimateEntity.set_hvac_mode (e : MiotClimateEntity) (s : StateAttrs)
    (hvac_mode : String) : MiValue × List Effect :=
  if hvac_mode == HVAC_MODE_OFF then e.turn_off s
  else
    match e.prop_mode with
    | Option.none => (MiValue.bool false, [])
    | some pm =>
      let pre : List Effect :=
        match e.prop_power with
        | some pw =>
          if !(e.is_on s).truthy then [Effect.write pw.fullName (MiValue.bool true)] else []
        | _ => []
      match e.hvac_mode_value hvac_mode with
      | Option.none => (MiValue.bool false, pre)
      | some v =>
        let r := set_property pm.fullName (MiValue.int v)
        (r.1, pre ++ r.2)

/-- Embeds `MiotClimateEntity.min_temp` (lines 333-337); `None` models the case
where the target-temperature property carries no numeric range (Python's
`range_min()` then yields `None`). -/
def MiotClimateEntity.min_temp (e : MiotClimateEntity) : Option ℚ :=
  match e.prop_target_temp with
  | some p => p.range_min
  | _ => some 16

/-- Embeds `MiotClimateEntity.max_temp` (lines 339-343). -/
def MiotClimateEntity.max_temp (e : MiotClimateEntity) : Option ℚ :=
  match e.prop_target_temp with
  | some p => p.range_max
  | _ => some 31

/-- Embeds `MiotClimateEntity.set_temperature` (lines 365-376), with the `kwargs`
dictionary split into its two recognised optional entries.  The `None`
result stands for the `TypeError`/`AttributeError` Python would raise when a
temperature is supplied but the bounds or the target property are missing. -/
def MiotClimateEntity.set_temperature (e : MiotClimateEntity) (s : StateAttrs)
    (hvac : Option String) (temp : Option ℚ) : MiValue × List Effect :=
  let r0 : MiValue × List Effect :=
    match hvac with
    | some hm => e.set_hvac_mode s hm
    | _ => (MiValue.bool false, [])
  match temp with
  | some t =>
    match e.min_temp, e.max_temp, e.prop_target_temp with
    | some mn, some mx, some p =>
      let v1 := if t < mn then mn else t
      let v2 := if v1 > mx then mx else v1
      let r := set_property p.fullName (MiValue.rat v2)
      (r.1, r0.2 ++ r.2)
    | _, _, _ => (MiValue.none, r0.2)
  | _ => r0

/-- Embeds `MiotClimateEntity.min_humidity` (lines 392-396); the default is the
platform constant `DEFAULT_MIN_HUMIDITY = 30`. -/
def MiotClimateEntity.min_humidity (e : MiotClimateEntity) : Option ℚ :=
  match e.prop_target_humi with
  | some p => p.range_min
  | _ => some 30

/-- Embeds `MiotClimateEntity.max_humidity` (lines 398-402); the default is the
platform constant `DEFAULT_MAX_HUMIDITY = 99`. -/
def MiotClimateEntity.max_humidity (e : MiotClimateEntity) : Option ℚ :=
  match e.prop_target_humi with
  | some p => p.range_max
  | _ => some 99

/-- Embeds `MiotClimateEntity.set_humidity` (lines 404-407). -/
def MiotClimateEntity.set_humidity (e : MiotClimateEntity) (humidity : ℚ) :
    MiValue × List Effect :=
  match e.prop_target_humi with
  | some p => set_property p.fullName (MiValue.rat humidity)
  | _ => (MiValue.bool false, [])

/-- Embeds `MiotClimateEntity.set_fan_mode` (lines 423-427). -/
def MiotClimateEntity.set_fan_mode (e : MiotClimateEntity) (fan_mode : String) :
    MiValue × List Effect :=
  match e.prop_fan_level with
  | some p =>
    let val : MiValue :=
      match p.list_value fan_mode with
      | some v => MiValue.int v
      | _ => MiValue.none
    set_property p.fullName val
  | _ => (MiValue.bool false, [])

/-- Embeds `MiotClimateEntity.swing_mode` (lines 429-438). -/
def MiotClimateEntity.swing_mode (e : MiotClimateEntity) (s : StateAttrs) : String :=
  let v1 : Nat :=
    match e.prop_vertical_swing with
    | some p => if (p.from_dict s (MiValue.bool false)).truthy then 1 else 0
    | _ => 0
  let v2 : Nat :=
    match e.prop_horizontal_swing with
    | some p => if (p.from_dict s (MiValue.bool false)).truthy then 2 else 0
    | _ => 0
  SwingModes_name (v1 ||| v2)

/-- The `ver`/`hor` assignments of `set_swing_mode` (lines 454-468) as a
function of the requested bitmask value. -/
def swingTargets (val : Nat) : Option Bool × Option Bool :=
  let p1 : Option Bool × Option Bool :=
    if val &&& 1 ≠ 0 then (some true, if val == 1 then some false else Option.none)
    else (Option.none, Option.none)
  let p2 : Option Bool × Option Bool :=
    if val &&& 2 ≠ 0 then ((if val == 2 then some false else p1.1), some true)
    else p1
  if val == 0 then (some false, some false) else p2

/-- The `swm` dictionary of `set_swing_mode` (lines 469-473), keyed — as in
the source — by the property's short `name`, with dict-overwrite semantics on
a key collision. -/
def MiotClimateEntity.swing_targets_map (e : MiotClimateEntity)
    (vh : Option Bool × Option Bool) : List (String × Option Bool) :=
  match e.prop_vertical_swing, e.prop_horizontal_swing with
  | some pv, some ph =>
    if ph.name == pv.name then [(pv.name, vh.2)]
    else [(pv.name, vh.1), (ph.name, vh.2)]
  | some pv, Option.none => [(pv.name, vh.1)]
  | Option.none, some ph => [(ph.name, vh.2)]
  | Option.none, Option.none => []

/-- One iteration of the `for mk, mv in swm.items()` loop of `set_swing_mode`
(lines 474-480): skip on a missing target, a missing cached value, or a
cached value equal (Python `==`) to the target; otherwise perform the write
and let its result become `ret`. -/
def swingWriteStep (s : StateAttrs) (acc : MiValue × List Effect)
    (kv : String × Option Bool) : MiValue × List Effect :=
  match kv.2 with
  | some mv =>
    let old := getAttr s kv.1
    if old = MiValue.none then acc
    else if pyEq (MiValue.bool mv) old then acc
    else
      let r := set_property kv.1 (MiValue.bool mv)
      (r.1, acc.2 ++ r.2)
  | _ => acc

/-- Embeds `MiotClimateEntity.set_swing_mode` (lines 453-481); the `None` result for
an unknown name stands for Python's `KeyError`. -/
def MiotClimateEntity.set_swing_mode (e : MiotClimateEntity) (s : StateAttrs)
    (swing_mode : String) : MiValue × List Effect :=
  match SwingModes_value swing_mode with
  | some val =>
    List.foldl (swingWriteStep s) (MiValue.none, [])
      (e.swing_targets_map (swingTargets val))
  | _ => (MiValue.none, [])

/-- A `MiotFanEntity` (`fan.py` lines 70-98) restricted to what its speed
methods consult: its primary service. -/
structure MiotFanEntity where
  miot_service : MiotService
deriving DecidableEq, Repr

/-- Embeds `self._prop_speed = miot_service.get_property('fan_level', 'drying_level')`. -/
def MiotFanEntity.prop_speed (e : MiotFanEntity) : Option MiotProperty :=
  e.miot_service.get_property ["fan_level", "drying_level"]

/-- Embeds `MiotFanEntity.set_speed` (`fan.py` lines 127-137); the `None` result
stands for the `AttributeError` Python raises when no speed property exists. -/
def MiotFanEntity.set_speed (e : MiotFanEntity) (speed : String) : MiValue × List Effect :=
  match e.prop_speed with
  | some p =>
    match (List.find? (fun it => it.description == speed) p.valueList) with
    | some it => set_property p.fullName (MiValue.int it.value)
    | _ => (MiValue.bool false, [])
  | _ => (MiValue.none, [])

/-- A `MiotWasherSubEntity` (`fan.py` lines 204-235): it wraps one property
of its parent; `parent_on` is the truthiness of `self._parent.is_on`, and the
sub-entity reads the parent's cached snapshot under
`self._attr = miot_property.full_name`. -/
structure MiotWasherSubEntity where
  parent_on : Bool
  miot_property : MiotProperty
deriving DecidableEq, Repr

/-- Embeds `MiotWasherSubEntity.is_on` (`fan.py` lines 224-235): false when the
parent is off; for the three sentinel-bearing properties the source compares
the scalar snapshot value with the *list* returned by `list_search` via
Python `!=`. -/
def MiotWasherSubEntity.is_on (w : MiotWasherSubEntity) (s : StateAttrs) : Bool :=
  if !w.parent_on then false
  else
    let sta := getAttr s w.miot_property.fullName
    if w.miot_property.name == "spin_speed" then
      pyNeScalarList sta (w.miot_property.list_search ["no spin"])
    else if w.miot_property.name == "target_temperature" then
      pyNeScalarList sta (w.miot_property.list_search ["cold"])
    else if w.miot_property.name == "drying_level" then
      pyNeScalarList sta (w.miot_property.list_search ["none"])
    else true

/-! ### Helper lemmas -/

/-- When each of the three probed alternate power-mode names (`blow`,
`heating`, `ventilation`) either resolves no boolean property or reads falsy,
the alternate-power loop of `is_on` yields no result.  Properties under any
other name are never probed by the loop and are irrelevant. -/
theorem alternate_power_on_eq_false (e : MiotClimateEntity) (s : StateAttrs)
    (h : ∀ m ∈ power_modes, ∀ p, e.miot_service.bool_property m = some p →
      (getAttr s p.fullName).truthy = false) :
    e.alternate_power_on s = false := by
  have hb : ∀ m, m ∈ power_modes → (match e.miot_service.bool_property m with
      | some p => (getAttr s p.fullName).truthy
      | _ => false) = false := by
    intro m hm
    cases hf : e.miot_service.bool_property m with
    | none => rfl
    | some p => simpa using h m hm p hf
  unfold MiotClimateEntity.alternate_power_on power_modes
  simp only [List.any_cons, List.any_nil, Bool.or_eq_false_iff]
  exact ⟨hb "blow" (by decide), hb "heating" (by decide), hb "ventilation" (by decide), trivial⟩

/-! ### C1 -/

/-- Mode property of the C1 counterexample device. -/
def C1modeProp : MiotProperty :=
  { name := "mode", fullName := "ptc_bath_heater.mode", format := "uint8",
    valueList := [⟨0, "Off"⟩, ⟨1, "Heat"⟩], valueRange := Option.none }

/-- A bath-heater service with no dedicated `on` property but with a boolean
`heating` alternate power property next to its mode property. -/
def C1svc : MiotService :=
  { name := "ptc_bath_heater", iid := 2,
    props := [
      { name := "heating", fullName := "ptc_bath_heater.heating", format := "bool",
        valueList := [], valueRange := Option.none },
      C1modeProp],
    actions := [] }

/-- The C1 counterexample entity. -/
def C1entity : MiotClimateEntity := { spec := ⟨[C1svc]⟩, miot_service := C1svc }

/-- Snapshot: the `heating` toggle is on while the mode sits at its Off raw
value. -/
def C1state : StateAttrs :=
  [("ptc_bath_heater.heating", MiValue.bool true), ("ptc_bath_heater.mode", MiValue.int 0)]

/-- C1, counterexample: an entity with no dedicated power property and a
resolved Off raw value whose truthy boolean `heating` property makes `is_on`
true even though the current raw mode equals the resolved Off value, so the
claimed biconditional fails. -/
theorem C1_counterexample :
    C1entity.prop_power = Option.none ∧
    C1entity.prop_mode = some C1modeProp ∧
    C1entity.hvac_mode_value HVAC_MODE_OFF = some 0 ∧
    pyEq (MiValue.int 0) (C1modeProp.from_dict C1state MiValue.none) = true ∧
    (C1entity.is_on C1state).truthy = true ∧
    ¬ ((C1entity.is_on C1state).truthy = true ↔
        pyEq (MiValue.int 0) (C1modeProp.from_dict C1state MiValue.none) = false) := by
  decide

/-- C1, amended: with no dedicated power property, none of the three
alternate power-mode boolean properties (`blow`, `heating`, `ventilation`)
reading truthy, and a resolved Off raw value, `is_on` is exactly the boolean
"current raw mode differs (Python `==`) from the resolved Off raw value".
Boolean properties under any other name are unconstrained. -/
theorem C1_is_on_mode_derived (e : MiotClimateEntity) (s : StateAttrs)
    (hp : e.prop_power = Option.none)
    (ha : ∀ m ∈ power_modes, ∀ p, e.miot_service.bool_property m = some p →
      (getAttr s p.fullName).truthy = false)
    (pm : MiotProperty) (hm : e.prop_mode = some pm)
    (off : Int) (ho : e.hvac_mode_value HVAC_MODE_OFF = some off) :
    e.is_on s = MiValue.bool (!(pyEq (MiValue.int off) (pm.from_dict s MiValue.none))) ∧
    ((e.is_on s).truthy = true ↔
      pyEq (MiValue.int off) (pm.from_dict s MiValue.none) = false) := by
  have hb := alternate_power_on_eq_false e s ha
  unfold MiotClimateEntity.is_on
  rw [hp, hb, hm, ho]
  refine ⟨rfl, ?_⟩
  simp [MiValue.truthy]

/-- Mode property of the C1 witness device. -/
def C1wmode : MiotProperty :=
  { name := "mode", fullName := "heater.mode", format := "uint8",
    valueList := [⟨0, "Off"⟩, ⟨1, "Heat"⟩], valueRange := Option.none }

/-- Anion toggle of the C1 witness device: a boolean property whose name is
outside the alternate power-mode set, so the `is_on` loop never probes it. -/
def C1wanion : MiotProperty :=
  { name := "anion", fullName := "heater.anion", format := "bool",
    valueList := [], valueRange := Option.none }

/-- Heater service for the C1 witness: a mode property plus the unrelated
boolean `anion` toggle, but no `on` and none of `blow`/`heating`/`ventilation`. -/
def C1wsvc : MiotService :=
  { name := "heater", iid := 2, props := [C1wanion, C1wmode], actions := [] }

/-- The C1 witness entity. -/
def C1wentity : MiotClimateEntity := { spec := ⟨[C1wsvc]⟩, miot_service := C1wsvc }

/-- Snapshot for the C1 witness: the unrelated `anion` toggle reads truthy
and the raw mode is 1, differing from the Off value 0. -/
def C1wstate : StateAttrs :=
  [("heater.anion", MiValue.bool true), ("heater.mode", MiValue.int 1)]

/-- Witness for the amended C1 on a concrete device: the truthy boolean
`anion` property does not disturb the mode-derived reading (its name is never
probed), and `is_on` is truthy because the raw mode 1 differs from the
resolved Off value 0. -/
theorem C1_is_on_mode_derived_witness :
    C1wentity.is_on C1wstate =
      MiValue.bool (!(pyEq (MiValue.int 0) (C1wmode.from_dict C1wstate MiValue.none))) ∧
    (C1wentity.is_on C1wstate).truthy = true := by
  have ha : ∀ m ∈ power_modes, ∀ p, C1wentity.miot_service.bool_property m = some p →
      (getAttr C1wstate p.fullName).truthy = false := by
    intro m hm p hmp
    simp only [power_modes, List.mem_cons, List.not_mem_nil, or_false] at hm
    rcases hm with rfl | rfl | rfl
    · rw [show C1wentity.miot_service.bool_property "blow" = Option.none from rfl] at hmp
      cases hmp
    · rw [show C1wentity.miot_service.bool_property "heating" = Option.none from rfl] at hmp
      cases hmp
    · rw [show C1wentity.miot_service.bool_property "ventilation" = Option.none from rfl] at hmp
      cases hmp
  refine ⟨?_, by decide⟩
  exact (C1_is_on_mode_derived C1wentity C1wstate (by decide) ha
    C1wmode (by decide) 0 (by decide)).1

/-! ### C2 -/

/-- Vertical-swing property of the C2 device. -/
def C2vert : MiotProperty :=
  { name := "vertical_swing", fullName := "fan_control.vertical_swing", format := "bool",
    valueList := [], valueRange := Option.none }

/-- Horizontal-swing property of the C2 device. -/
def C2horz : MiotProperty :=
  { name := "horizontal_swing", fullName := "fan_control.horizontal_swing", format := "bool",
    valueList := [], valueRange := Option.none }

/-- Fan-control service of the C2 device, carrying both swing axes. -/
def C2fc : MiotService :=
  { name := "fan_control", iid := 3, props := [C2vert, C2horz], actions := [] }

/-- Primary service of the C2 device. -/
def C2main : MiotService := { name := "air_conditioner", iid := 2, props := [], actions := [] }

/-- The C2 entity: both axis properties exist. -/
def C2entity : MiotClimateEntity := { spec := ⟨[C2main, C2fc]⟩, miot_service := C2main }

/-- Snapshot for C2: both axes are off under their fully-qualified keys; a
stray cached value also sits under the vertical axis short name, which is the
key `set_swing_mode` actually consults and writes. -/
def C2state : StateAttrs :=
  [("vertical_swing", MiValue.bool false),
   ("fan_control.vertical_swing", MiValue.bool false),
   ("fan_control.horizontal_swing", MiValue.bool false)]

/-- C2, failing run: with both axis properties present, a successful
`set_swing_mode("Vertical")` writes under the short property name (and skips
the horizontal axis, whose short name has no cached value), so after its
writes are reflected in the snapshot `swing_mode` — which reads the
fully-qualified names — still reports `Off`, not `Vertical`. -/
theorem C2_short_key_mismatch :
    C2entity.prop_vertical_swing = some C2vert ∧
    C2entity.prop_horizontal_swing = some C2horz ∧
    (C2entity.set_swing_mode C2state "Vertical").1 = MiValue.bool true ∧
    (C2entity.set_swing_mode C2state "Vertical").2 =
      [Effect.write "vertical_swing" (MiValue.bool true)] ∧
    C2entity.swing_mode
      (applyEffects C2state (C2entity.set_swing_mode C2state "Vertical").2) = "Off" ∧
    C2entity.swing_mode
      (applyEffects C2state (C2entity.set_swing_mode C2state "Vertical").2) ≠ "Vertical" := by
  decide

/-! ### C3 -/

/-- C3: writing Off delegates verbatim to the power-off path (`turn_off`),
so the Off branch performs no direct mode write of its own; any other mode
returns `False` when its raw value is unresolved for this device; a resolved
mode first writes power-on exactly when a dedicated power property exists and
the entity currently reads as off, then writes the resolved raw value to the
mode property. -/
theorem C3_set_hvac_mode_contract (e : MiotClimateEntity) (s : StateAttrs) (m : String) :
    (e.set_hvac_mode s HVAC_MODE_OFF = e.turn_off s) ∧
    (m ≠ HVAC_MODE_OFF → e.hvac_mode_value m = Option.none →
      (e.set_hvac_mode s m).1 = MiValue.bool false) ∧
    (∀ pm v, m ≠ HVAC_MODE_OFF → e.prop_mode = some pm → e.hvac_mode_value m = some v →
      (∀ pw, e.prop_power = some pw → (e.is_on s).truthy = false →
        e.set_hvac_mode s m =
          (MiValue.bool true,
           [Effect.write pw.fullName (MiValue.bool true),
            Effect.write pm.fullName (MiValue.int v)])) ∧
      (e.prop_power = Option.none ∨ (e.is_on s).truthy = true →
        e.set_hvac_mode s m =
          (MiValue.bool true, [Effect.write pm.fullName (MiValue.int v)]))) := by
  refine ⟨?_, ?_, ?_⟩
  · unfold MiotClimateEntity.set_hvac_mode
    rw [if_pos (by simp)]
  · intro hne hval
    unfold MiotClimateEntity.set_hvac_mode
    rw [if_neg (by simp [hne])]
    cases hpm : e.prop_mode with
    | none => rfl
    | some pm => rw [hval]
  · intro pm v hne hpm hval
    unfold MiotClimateEntity.set_hvac_mode
    rw [if_neg (by simp [hne]), hpm, hval]
    constructor
    · intro pw hpw hoff
      rw [hpw, hoff]
      simp [set_property]
    · intro hcase
      rcases hcase with h | h
      · rw [h]
        simp [set_property]
      · rw [h]
        cases hp : e.prop_power <;> simp [set_property]

/-- Dedicated power property of the C3 witness device. -/
def C3power : MiotProperty :=
  { name := "on", fullName := "heater.on", format := "bool",
    valueList := [], valueRange := Option.none }

/-- Mode property of the C3 witness device: only `Heat` is declared. -/
def C3mode : MiotProperty :=
  { name := "mode", fullName := "heater.mode", format := "uint8",
    valueList := [⟨1, "Heat"⟩], valueRange := Option.none }

/-- Primary service of the C3 witness device. -/
def C3svc : MiotService :=
  { name := "heater", iid := 2, props := [C3power, C3mode], actions := [] }

/-- The C3 witness entity. -/
def C3entity : MiotClimateEntity := { spec := ⟨[C3svc]⟩, miot_service := C3svc }

/-- Snapshot for the C3 witness: the dedicated power property reads false. -/
def C3state : StateAttrs := [("heater.on", MiValue.bool false)]

/-- Witness for C3 on a concrete device: the Off branch equals `turn_off`,
an unresolved mode (`dry`) returns `False`, and a resolved mode (`heat`) on
the currently-off entity writes power-on and then the raw mode value 1. -/
theorem C3_set_hvac_mode_contract_witness :
    C3entity.set_hvac_mode C3state HVAC_MODE_OFF = C3entity.turn_off C3state ∧
    (C3entity.set_hvac_mode C3state HVAC_MODE_DRY).1 = MiValue.bool false ∧
    C3entity.set_hvac_mode C3state HVAC_MODE_HEAT =
      (MiValue.bool true,
       [Effect.write "heater.on" (MiValue.bool true),
        Effect.write "heater.mode" (MiValue.int 1)]) := by
  refine ⟨(C3_set_hvac_mode_contract C3entity C3state HVAC_MODE_HEAT).1, ?_, ?_⟩
  · exact (C3_set_hvac_mode_contract C3entity C3state HVAC_MODE_DRY).2.1
      (by decide) (by decide)
  · exact ((C3_set_hvac_mode_contract C3entity C3state HVAC_MODE_HEAT).2.2 C3mode 1
      (by decide) (by decide) (by decide)).1 C3power (by decide) (by decide)

/-! ### C4 -/

/-- C4: whenever the power-state resolution (`is_on`) yields a falsy value,
`hvac_mode` short-circuits to Off regardless of the raw mode value. -/
theorem C4_power_dominates_mode (e : MiotClimateEntity) (s : StateAttrs)
    (h : (e.is_on s).truthy = false) : e.hvac_mode s = some HVAC_MODE_OFF := by
  unfold MiotClimateEntity.hvac_mode
  rw [h]
  rfl

/-- Witness for C4 on a concrete device: `is_on` is falsy (dedicated power
property reads false), so `hvac_mode` returns Off. -/
theorem C4_power_dominates_mode_witness :
    (C3entity.is_on C3state).truthy = false ∧
    C3entity.hvac_mode C3state = some HVAC_MODE_OFF :=
  ⟨by decide, C4_power_dominates_mode C3entity C3state (by decide)⟩

/-! ### C5 -/

/-- C5: with a target-temperature property carrying a sane range, the
temperature written by `set_temperature` is the requested value clamped to
`[range min, range max]`: below-minimum requests store exactly the minimum,
above-maximum requests exactly the maximum, in-range requests are unchanged. -/
theorem C5_set_temperature_clamps (e : MiotClimateEntity) (s : StateAttrs)
    (p : MiotProperty) (r : ValueRange) (hp : e.prop_target_temp = some p)
    (hr : p.valueRange = some r) (hq : r.low ≤ r.high) (t : ℚ) :
    (t < r.low →
      e.set_temperature s Option.none (some t) =
        (MiValue.bool true, [Effect.write p.fullName (MiValue.rat r.low)])) ∧
    (r.high < t →
      e.set_temperature s Option.none (some t) =
        (MiValue.bool true, [Effect.write p.fullName (MiValue.rat r.high)])) ∧
    (r.low ≤ t → t ≤ r.high →
      e.set_temperature s Option.none (some t) =
        (MiValue.bool true, [Effect.write p.fullName (MiValue.rat t)])) := by
  have hmn : e.min_temp = some r.low := by
    unfold MiotClimateEntity.min_temp MiotProperty.range_min
    rw [hp]
    simp [hr]
  have hmx : e.max_temp = some r.high := by
    unfold MiotClimateEntity.max_temp MiotProperty.range_max
    rw [hp]
    simp [hr]
  unfold MiotClimateEntity.set_temperature set_property
  rw [hmn, hmx, hp]
  simp only []
  refine ⟨?_, ?_, ?_⟩
  · intro hlt
    rw [if_pos hlt, if_neg (not_lt.mpr hq), List.nil_append]
  · intro hgt
    rw [if_neg (not_lt.mpr (le_of_lt (lt_of_le_of_lt hq hgt))), if_pos hgt, List.nil_append]
  · intro h1 h2
    rw [if_neg (not_lt.mpr h1), if_neg (not_lt.mpr h2), List.nil_append]

/-- Target-temperature property of the C5 witness device, ranged 16..31. -/
def C5temp : MiotProperty :=
  { name := "target_temperature", fullName := "heater.target_temperature", format := "float",
    valueList := [], valueRange := some ⟨16, 31, 1⟩ }

/-- Primary service of the C5 witness device. -/
def C5svc : MiotService := { name := "heater", iid := 2, props := [C5temp], actions := [] }

/-- The C5 witness entity. -/
def C5entity : MiotClimateEntity := { spec := ⟨[C5svc]⟩, miot_service := C5svc }

/-- Empty snapshot for the C5 witness (the setter never reads it). -/
def C5state : StateAttrs := []

/-- Witness for C5 on a concrete device with range 16..31: requesting 10
stores 16, requesting 40 stores 31, requesting 20 stores 20. -/
theorem C5_set_temperature_clamps_witness :
    C5entity.set_temperature C5state Option.none (some 10) =
      (MiValue.bool true, [Effect.write "heater.target_temperature" (MiValue.rat 16)]) ∧
    C5entity.set_temperature C5state Option.none (some 40) =
      (MiValue.bool true, [Effect.write "heater.target_temperature" (MiValue.rat 31)]) ∧
    C5entity.set_temperature C5state Option.none (some 20) =
      (MiValue.bool true, [Effect.write "heater.target_temperature" (MiValue.rat 20)]) := by
  refine ⟨?_, ?_, ?_⟩
  · exact (C5_set_temperature_clamps C5entity C5state C5temp ⟨16, 31, 1⟩
      rfl rfl (by norm_num) 10).1 (by norm_num)
  · exact (C5_set_temperature_clamps C5entity C5state C5temp ⟨16, 31, 1⟩
      rfl rfl (by norm_num) 40).2.1 (by norm_num)
  · exact (C5_set_temperature_clamps C5entity C5state C5temp ⟨16, 31, 1⟩
      rfl rfl (by norm_num) 20).2.2 (by norm_num) (by norm_num)

/-! ### C6 -/

/-- Target-humidity property of the C6 device, ranged 30..80. -/
def C6humi : MiotProperty :=
  { name := "target_humidity", fullName := "air_conditioner.target_humidity", format := "uint8",
    valueList := [], valueRange := some ⟨30, 80, 1⟩ }

/-- Primary service of the C6 device. -/
def C6svc : MiotService :=
  { name := "air_conditioner", iid := 2, props := [C6humi], actions := [] }

/-- The C6 entity. -/
def C6entity : MiotClimateEntity := { spec := ⟨[C6svc]⟩, miot_service := C6svc }

/-- C6, counterexample: on a device whose target-humidity range starts at 30,
`set_humidity(10)` writes 10 unchanged — no clamping to `min_humidity`
happens, contrary to the claim. -/
theorem C6_counterexample :
    C6entity.prop_target_humi = some C6humi ∧
    C6entity.min_humidity = some 30 ∧
    C6entity.set_humidity 10 =
      (MiValue.bool true, [Effect.write "air_conditioner.target_humidity" (MiValue.rat 10)]) := by
  refine ⟨rfl, rfl, rfl⟩

/-- C6, amended: `set_humidity` forwards the requested humidity unchanged to
the target-humidity property, with no clamping. -/
theorem C6_no_clamp (e : MiotClimateEntity) (p : MiotProperty)
    (hp : e.prop_target_humi = some p) (h : ℚ) :
    e.set_humidity h = (MiValue.bool true, [Effect.write p.fullName (MiValue.rat h)]) := by
  unfold MiotClimateEntity.set_humidity
  rw [hp]
  rfl

/-- Witness for the amended C6: an in-range request is likewise forwarded
unchanged. -/
theorem C6_no_clamp_witness :
    C6entity.set_humidity 55 =
      (MiValue.bool true, [Effect.write "air_conditioner.target_humidity" (MiValue.rat 55)]) :=
  C6_no_clamp C6entity C6humi rfl 55

/-! ### C7 -/

/-- Characterises membership in the effect list accumulated by the swing
write loop: an effect is either inherited from the accumulator or is a write
for some listed axis entry whose target is set, whose cached value is
present, and whose target differs (Python `==`) from that cached value. -/
theorem mem_swing_foldl (s : StateAttrs) (l : List (String × Option Bool))
    (acc : MiValue × List Effect) (eff : Effect) :
    (eff ∈ (List.foldl (swingWriteStep s) acc l).2) ↔
      (eff ∈ acc.2 ∨ ∃ k b, (k, some b) ∈ l ∧ getAttr s k ≠ MiValue.none ∧
        pyEq (MiValue.bool b) (getAttr s k) = false ∧
        eff = Effect.write k (MiValue.bool b)) := by
  induction l generalizing acc with
  | nil => simp
  | cons kv tl ih =>
    rw [List.foldl_cons, ih]
    rcases kv with ⟨k, ob⟩
    cases ob with
    | none =>
      simp only [swingWriteStep]
      constructor
      · rintro (h | ⟨k1, b1, hmem, hne, hpe, heq⟩)
        · exact Or.inl h
        · exact Or.inr ⟨k1, b1, List.mem_cons_of_mem _ hmem, hne, hpe, heq⟩
      · rintro (h | ⟨k1, b1, hmem, hne, hpe, heq⟩)
        · exact Or.inl h
        · rcases List.mem_cons.mp hmem with heq2 | hmem2
          · simp at heq2
          · exact Or.inr ⟨k1, b1, hmem2, hne, hpe, heq⟩
    | some b =>
      simp only [swingWriteStep, set_property]
      by_cases h1 : getAttr s k = MiValue.none
      · rw [if_pos h1]
        constructor
        · rintro (h | ⟨k1, b1, hmem, hne, hpe, heq⟩)
          · exact Or.inl h
          · exact Or.inr ⟨k1, b1, List.mem_cons_of_mem _ hmem, hne, hpe, heq⟩
        · rintro (h | ⟨k1, b1, hmem, hne, hpe, heq⟩)
          · exact Or.inl h
          · rcases List.mem_cons.mp hmem with heq2 | hmem2
            · injection heq2 with hk hb
              subst hk
              exact absurd h1 hne
            · exact Or.inr ⟨k1, b1, hmem2, hne, hpe, heq⟩
      · rw [if_neg h1]
        by_cases h2 : pyEq (MiValue.bool b) (getAttr s k) = true
        · rw [if_pos h2]
          constructor
          · rintro (h | ⟨k1, b1, hmem, hne, hpe, heq⟩)
            · exact Or.inl h
            · exact Or.inr ⟨k1, b1, List.mem_cons_of_mem _ hmem, hne, hpe, heq⟩
          · rintro (h | ⟨k1, b1, hmem, hne, hpe, heq⟩)
            · exact Or.inl h
            · rcases List.mem_cons.mp hmem with heq2 | hmem2
              · injection heq2 with hk hb
                injection hb with hb2
                subst hk
                subst hb2
                rw [hpe] at h2
                cases h2
              · exact Or.inr ⟨k1, b1, hmem2, hne, hpe, heq⟩
        · rw [if_neg h2]
          constructor
          · rintro (h | ⟨k1, b1, hmem, hne, hpe, heq⟩)
            · rcases List.mem_append.mp h with ha | hb
              · exact Or.inl ha
              · refine Or.inr ⟨k, b, List.mem_cons_self _ _, h1, ?_, by simpa using hb⟩
                exact Bool.eq_false_iff.mpr h2
            · exact Or.inr ⟨k1, b1, List.mem_cons_of_mem _ hmem, hne, hpe, heq⟩
          · rintro (h | ⟨k1, b1, hmem, hne, hpe, heq⟩)
            · exact Or.inl (List.mem_append.mpr (Or.inl h))
            · rcases List.mem_cons.mp hmem with heq2 | hmem2
              · injection heq2 with hk hb
                injection hb with hb2
                subst hk
                subst hb2
                exact Or.inl (List.mem_append.mpr (Or.inr (by simp [heq])))
              · exact Or.inr ⟨k1, b1, hmem2, hne, hpe, heq⟩

/-- The `swm` dictionary of `set_swing_mode` binds each key at most once, so
a key determines its target value. -/
theorem swing_targets_map_unique (e : MiotClimateEntity) (vh : Option Bool × Option Bool)
    (k : String) (b1 b2 : Option Bool)
    (h1 : (k, b1) ∈ e.swing_targets_map vh) (h2 : (k, b2) ∈ e.swing_targets_map vh) :
    b1 = b2 := by
  unfold MiotClimateEntity.swing_targets_map at h1 h2
  cases hv : e.prop_vertical_swing with
  | none =>
    cases hh : e.prop_horizontal_swing with
    | none =>
      rw [hv, hh] at h1
      simp at h1
    | some ph =>
      rw [hv, hh] at h1 h2
      simp only [List.mem_singleton, Prod.mk.injEq] at h1 h2
      rw [h1.2, h2.2]
  | some pv =>
    cases hh : e.prop_horizontal_swing with
    | none =>
      rw [hv, hh] at h1 h2
      simp only [List.mem_singleton, Prod.mk.injEq] at h1 h2
      rw [h1.2, h2.2]
    | some ph =>
      rw [hv, hh] at h1 h2
      simp only [] at h1 h2
      by_cases hn : (ph.name == pv.name) = true
      · rw [if_pos hn] at h1 h2
        simp only [List.mem_singleton, Prod.mk.injEq] at h1 h2
        rw [h1.2, h2.2]
      · rw [if_neg hn] at h1 h2
        have hne : ph.name ≠ pv.name := by simpa using hn
        rcases List.mem_cons.mp h1 with e1 | e1 <;>
          rcases List.mem_cons.mp h2 with e2 | e2 <;>
          simp only [List.mem_singleton, Prod.mk.injEq] at e1 e2
        · rw [e1.2, e2.2]
        · exact absurd (e1.1.symm.trans e2.1) (fun hcon => hne hcon.symm)
        · exact absurd (e1.1.symm.trans e2.1) hne
        · rw [e1.2, e2.2]

/-- Every key of the `swm` dictionary is the short name of an existing axis
property, so the loop can only ever write existing axes. -/
theorem swing_targets_map_keys (e : MiotClimateEntity) (vh : Option Bool × Option Bool)
    (k : String) (ob : Option Bool) (h : (k, ob) ∈ e.swing_targets_map vh) :
    (∃ p, e.prop_vertical_swing = some p ∧ p.name = k) ∨
    (∃ p, e.prop_horizontal_swing = some p ∧ p.name = k) := by
  unfold MiotClimateEntity.swing_targets_map at h
  cases hv : e.prop_vertical_swing with
  | none =>
    cases hh : e.prop_horizontal_swing with
    | none =>
      rw [hv, hh] at h
      simp at h
    | some ph =>
      rw [hv, hh] at h
      simp only [List.mem_singleton, Prod.mk.injEq] at h
      exact Or.inr ⟨ph, rfl, h.1.symm⟩
  | some pv =>
    cases hh : e.prop_horizontal_swing with
    | none =>
      rw [hv, hh] at h
      simp only [List.mem_singleton, Prod.mk.injEq] at h
      exact Or.inl ⟨pv, rfl, h.1.symm⟩
    | some ph =>
      rw [hv, hh] at h
      simp only [] at h
      by_cases hn : (ph.name == pv.name) = true
      · rw [if_pos hn] at h
        simp only [List.mem_singleton, Prod.mk.injEq] at h
        exact Or.inl ⟨pv, rfl, h.1.symm⟩
      · rw [if_neg hn] at h
        rcases List.mem_cons.mp h with h1 | h1 <;>
          simp only [List.mem_singleton, Prod.mk.injEq] at h1
        · exact Or.inl ⟨pv, rfl, h1.1.symm⟩
        · exact Or.inr ⟨ph, rfl, h1.1.symm⟩

/-- C7: the swing write loop performs no write at all when neither axis
property exists; every write it performs targets the short name of an
existing axis property with that key's requested boolean, a present cached
value, and a target differing (Python `==`) from the cached value; and an
axis whose requested target equals its cached value receives no write. -/
theorem C7_swing_write_frame (e : MiotClimateEntity) (s : StateAttrs)
    (m : String) (val : Nat) (hm : SwingModes_value m = some val) :
    (e.prop_vertical_swing = Option.none → e.prop_horizontal_swing = Option.none →
      (e.set_swing_mode s m).2 = []) ∧
    (∀ eff ∈ (e.set_swing_mode s m).2, ∃ k b,
      eff = Effect.write k (MiValue.bool b) ∧
      (k, some b) ∈ e.swing_targets_map (swingTargets val) ∧
      ((∃ p, e.prop_vertical_swing = some p ∧ p.name = k) ∨
       (∃ p, e.prop_horizontal_swing = some p ∧ p.name = k)) ∧
      getAttr s k ≠ MiValue.none ∧
      pyEq (MiValue.bool b) (getAttr s k) = false) ∧
    (∀ k b, (k, some b) ∈ e.swing_targets_map (swingTargets val) →
      pyEq (MiValue.bool b) (getAttr s k) = true →
      ∀ v, Effect.write k v ∉ (e.set_swing_mode s m).2) := by
  have hset : e.set_swing_mode s m =
      List.foldl (swingWriteStep s) (MiValue.none, [])
        (e.swing_targets_map (swingTargets val)) := by
    unfold MiotClimateEntity.set_swing_mode
    rw [hm]
  refine ⟨?_, ?_, ?_⟩
  · intro h1 h2
    rw [hset]
    unfold MiotClimateEntity.swing_targets_map
    rw [h1, h2]
    rfl
  · intro eff heff
    rw [hset] at heff
    rcases (mem_swing_foldl s _ _ eff).mp heff with h | ⟨k, b, hmem, hne, hpe, heq⟩
    · cases h
    · exact ⟨k, b, heq, hmem, swing_targets_map_keys e _ k (some b) hmem, hne, hpe⟩
  · intro k b hmem hpe v hv
    rw [hset] at hv
    rcases (mem_swing_foldl s _ _ _).mp hv with h | ⟨k1, b1, hmem1, hne1, hpe1, heq1⟩
    · cases h
    · injection heq1 with hk hv2
      subst hk
      have hu := swing_targets_map_unique e _ k (some b) (some b1) hmem hmem1
      injection hu with hb
      rw [← hb] at hpe1
      rw [hpe] at hpe1
      cases hpe1

/-- Snapshot for the C7 witness: the vertical axis already reads true under
the key the write loop consults. -/
def C7state : StateAttrs := [("vertical_swing", MiValue.bool true)]

/-- Witness for C7 on a concrete device with both axes: requesting
`Vertical` when the vertical axis already holds its target performs no write
on that axis (and, the horizontal axis cache being absent, no write at all). -/
theorem C7_swing_write_frame_witness :
    (C2entity.set_swing_mode C7state "Vertical").2 = [] ∧
    (∀ v, Effect.write "vertical_swing" v ∉ (C2entity.set_swing_mode C7state "Vertical").2) := by
  refine ⟨by decide, ?_⟩
  intro v
  exact (C7_swing_write_frame C2entity C7state "Vertical" 1 (by decide)).2.2
    "vertical_swing" true (by decide) (by decide) v

/-! ### C8 -/

/-- Fan-level property of the C8 climate device: `Turbo` is not declared. -/
def C8fanLevel : MiotProperty :=
  { name := "fan_level", fullName := "air_conditioner.fan_level", format := "uint8",
    valueList := [⟨0, "Low"⟩, ⟨1, "High"⟩], valueRange := Option.none }

/-- Primary service of the C8 climate device (no `fan_control` sibling). -/
def C8svc : MiotService :=
  { name := "air_conditioner", iid := 2, props := [C8fanLevel], actions := [] }

/-- The C8 climate entity. -/
def C8entity : MiotClimateEntity := { spec := ⟨[C8svc]⟩, miot_service := C8svc }

/-- The C8 fan entity, wrapping the same speed property. -/
def C8fan : MiotFanEntity :=
  { miot_service := { name := "fan", iid := 2, props := [C8fanLevel], actions := [] } }

/-- C8, failing run: `fan.py`'s `set_speed` conforms to the claim (returns
`False` with no write for the unmapped description), but `climate.py`'s
`set_fan_mode` does not — it forwards the unresolved `None` to
`set_property`, performing a property write of `None` and returning the
transport's result instead of returning falsy without writing. -/
theorem C8_unmapped_fan_mode :
    C8fan.set_speed "Turbo" = (MiValue.bool false, []) ∧
    C8entity.prop_fan_level = some C8fanLevel ∧
    C8fanLevel.list_value "Turbo" = Option.none ∧
    C8entity.set_fan_mode "Turbo" =
      (MiValue.bool true, [Effect.write "air_conditioner.fan_level" MiValue.none]) := by
  decide

/-! ### C9 -/

/-- Spin-speed property of the C9 washer: raw value 0 is `no spin`. -/
def C9prop : MiotProperty :=
  { name := "spin_speed", fullName := "washer.spin_speed", format := "uint8",
    valueList := [⟨0, "no spin"⟩, ⟨1, "400rpm"⟩], valueRange := Option.none }

/-- The C9 washer sub-entity; its parent is on. -/
def C9washer : MiotWasherSubEntity := { parent_on := true, miot_property := C9prop }

/-- Snapshot for C9: the spin speed sits exactly at the `no spin` raw value. -/
def C9state : StateAttrs := [("washer.spin_speed", MiValue.int 0)]

/-- C9, failing run: the `no spin` sentinel resolves to raw value 0 and the
property currently reads 0, yet `is_on` returns true — the source compares
the scalar snapshot value against the *list* returned by `list_search` with
Python `!=`, which never holds values equal. -/
theorem C9_washer_sentinel :
    C9prop.list_search ["no spin"] = [0] ∧
    getAttr C9state "washer.spin_speed" = MiValue.int 0 ∧
    C9washer.is_on C9state = true := by
  decide

/-! ### C10 -/

/-- C10: the advertised mode list always contains Off, and every other
listed mode has a raw value resolved from the mode property's value list. -/
theorem C10_hvac_modes_invariant (e : MiotClimateEntity) :
    HVAC_MODE_OFF ∈ e.hvac_modes ∧
    (∀ m, m ∈ e.hvac_modes → m ≠ HVAC_MODE_OFF → (e.hvac_mode_value m).isSome = true) := by
  constructor
  · unfold MiotClimateEntity.hvac_modes
    simp only []
    cases hpm : e.prop_mode with
    | none => simp
    | some pm =>
      by_cases hc : List.contains
          (List.map (fun c => c.1)
            (List.filter (fun c => (e.hvac_mode_value c.1).isSome) hvac_mode_lists))
          HVAC_MODE_OFF = true
      · rw [if_pos hc]
        simpa using hc
      · rw [if_neg hc]
        exact List.mem_append.mpr (Or.inr (List.mem_singleton.mpr rfl))
  · intro m hm hne
    unfold MiotClimateEntity.hvac_modes at hm
    simp only [] at hm
    cases hpm : e.prop_mode with
    | none =>
      rw [hpm] at hm
      simp at hm
      exact absurd hm hne
    | some pm =>
      rw [hpm] at hm
      have key : m ∈ List.map (fun c => c.1)
          (List.filter (fun c => (e.hvac_mode_value c.1).isSome) hvac_mode_lists) →
          (e.hvac_mode_value m).isSome = true := by
        intro hmm
        rcases List.mem_map.mp hmm with ⟨c, hcmem, hcx⟩
        have hp := (List.mem_filter.mp hcmem).2
        rw [← hcx]
        exact hp
      by_cases hc : List.contains
          (List.map (fun c => c.1)
            (List.filter (fun c => (e.hvac_mode_value c.1).isSome) hvac_mode_lists))
          HVAC_MODE_OFF = true
      · rw [if_pos hc] at hm
        exact key hm
      · rw [if_neg hc] at hm
        rcases List.mem_append.mp hm with h1 | h2
        · exact key h1
        · exact absurd (List.mem_singleton.mp h2) hne

/-- Mode property of the C10 witness device: `Auto` and `Cool` resolve, Off
does not. -/
def C10mode : MiotProperty :=
  { name := "mode", fullName := "air_conditioner.mode", format := "uint8",
    valueList := [⟨0, "Auto"⟩, ⟨1, "Cool"⟩], valueRange := Option.none }

/-- Primary service of the C10 witness device. -/
def C10svc : MiotService :=
  { name := "air_conditioner", iid := 2, props := [C10mode], actions := [] }

/-- The C10 witness entity. -/
def C10entity : MiotClimateEntity := { spec := ⟨[C10svc]⟩, miot_service := C10svc }

/-- Witness for C10 on a concrete device: Off is advertised even though it
resolved no raw value, and the advertised `auto` mode indeed has one. -/
theorem C10_hvac_modes_invariant_witness :
    HVAC_MODE_OFF ∈ C10entity.hvac_modes ∧
    (C10entity.hvac_mode_value HVAC_MODE_AUTO).isSome = true := by
  refine ⟨(C10_hvac_modes_invariant C10entity).1, ?_⟩
  exact (C10_hvac_modes_invariant C10entity).2 HVAC_MODE_AUTO (by decide) (by decide)

end HassXiaomiMiot
